import Mathlib

/-!
Verification of the RedditSync incremental sync and media ingestion pipeline.

The development shallowly embeds the Python source (`app/utils.py`,
`app/media_downloader.py`, `app/sync_worker.py`, `app/db.py` and the parallel
raw-SQL tree under `src/`) as executable Lean functions and proves or refutes
the specification's claims about them.  Machine strings are Lean `String`s,
byte counts are `Nat`, the HTTP transport and the SQLite store are explicit
values threaded through the functions, and Python exceptions are `Except`
results.
-/

namespace RedditSync

/-! ## Python string primitives

Executable models of the `str` operations the source uses: substring test
(`in`), prefix/suffix tests, `split`, `replace`, and `urllib.parse.urlparse`
restricted to the URL shapes the normalizer distinguishes. -/

/-- Characters of a string. -/
def chars (s : String) : List Char := s.data

/-- String from characters. -/
def ofChars (l : List Char) : String := ⟨l⟩

/-- Substring test on character lists: Python `pat in s` (empty needle matches). -/
def hasSub : List Char → List Char → Bool
  | [], pat => pat.isEmpty
  | c :: s, pat => pat.isPrefixOf (c :: s) || hasSub s pat

/-- Python `pat in s` on strings. -/
def pyIn (pat s : String) : Bool := hasSub s.data pat.data

/-- Python `s.endswith(suffix)`. -/
def pyEndsWith (s suffix : String) : Bool := suffix.data.isSuffixOf s.data

/-- Python `s.startswith(pre)`. -/
def pyStartsWith (s pre : String) : Bool := pre.data.isPrefixOf s.data

/-- Splits at the first occurrence of `pat` (nonempty), returning the parts
before and after it, or `none` if `pat` does not occur. -/
def splitFirst (pat : List Char) : List Char → Option (List Char × List Char)
  | [] => if pat.isEmpty then some ([], []) else none
  | c :: s =>
    if pat.isPrefixOf (c :: s) then some ([], (c :: s).drop pat.length)
    else
      match splitFirst pat s with
      | none => none
      | some (pre, post) => some (c :: pre, post)

/-- Python `s.split(sep)` for a single-character separator; never empty. -/
def splitChar (sep : Char) : List Char → List (List Char)
  | [] => [[]]
  | c :: s =>
    if c == sep then [] :: splitChar sep s
    else
      match splitChar sep s with
      | [] => [[c]]
      | g :: gs => (c :: g) :: gs

/-- Python `s.split(sep)[-1]`: the last segment. -/
def pyLastSegment (s : String) (sep : Char) : String :=
  ofChars ((splitChar sep s.data).getLastD [])

/-- Replace every (leftmost, non-overlapping) occurrence of the nonempty
pattern `pat` by `rep`; the fuel is the input length, which suffices because
each step consumes at least one character. -/
def replaceAux (pat rep : List Char) : Nat → List Char → List Char
  | _, [] => []
  | 0, s => s
  | fuel + 1, c :: s =>
    if pat.isPrefixOf (c :: s) then rep ++ replaceAux pat rep fuel (s.drop (pat.length - 1))
    else c :: replaceAux pat rep fuel s

/-- Python `s.replace(pat, rep)` for a nonempty `pat`. -/
def pyReplace (s pat rep : String) : String :=
  ofChars (replaceAux pat.data rep.data s.data.length s.data)

/-- Prefix of `l` strictly before the first occurrence of `c`. -/
def takeUntil (c : Char) (l : List Char) : List Char :=
  l.takeWhile (fun x => x != c)

/-- Result of `urllib.parse.urlparse` restricted to the components the
normalizer reads: scheme, network location, path and query. -/
structure UrlParts where
  scheme : String
  netloc : String
  path : String
  query : String
deriving DecidableEq, Repr

/-- Model of `urllib.parse.urlparse` for ordinary `scheme://host/path?query`
URLs (fragment stripped; a URL without `://` has empty scheme and netloc,
matching Python on the inputs the normalizer distinguishes). -/
def urlparse (url : String) : UrlParts :=
  let s := takeUntil '#' url.data
  match splitFirst "://".data s with
  | some (scheme, rest) =>
    let netloc := rest.takeWhile (fun c => c != '/' && c != '?')
    let after := rest.drop netloc.length
    let path := takeUntil '?' after
    let query := (after.drop path.length).drop 1
    ⟨ofChars scheme, ofChars netloc, ofChars path, ofChars query⟩
  | none =>
    let path := takeUntil '?' s
    ⟨"", "", ofChars path, ofChars ((s.drop path.length).drop 1)⟩

/-! ## URL Normalizer (`app/utils.py`, `normalize_media_url`) -/

/-- Media file suffixes recognized by the final strip-query rule. -/
def mediaSuffixes : List String := [".jpg", ".png", ".gif", ".mp4", ".webm", ".webp"]

/-- Model of `utils.normalize_media_url`.  The sequential early-return `if`s
of the Python body become a nested conditional with identical fall-through:
an imgur URL already ending in an image suffix, or a reddit-hosted URL that
matches none of the reddit sub-rules, falls to the final suffix rule. -/
def normalize_media_url (url : String) : String :=
  if url = "" then ""
  else
    let parsed := urlparse url
    if pyIn "imgur.com" parsed.netloc &&
        !(pyEndsWith url ".jpg" || pyEndsWith url ".png" || pyEndsWith url ".gif") then
      if pyIn "/a/" parsed.path || pyIn "/gallery/" parsed.path then
        "https://i.imgur.com/" ++ pyLastSegment parsed.path '/' ++ ".jpg"
      else
        "https://i.imgur.com/" ++ pyLastSegment parsed.path '/' ++ ".jpg"
    else if (pyIn "reddit.com" parsed.netloc || pyIn "redd.it" parsed.netloc) &&
        pyIn "v.redd.it" parsed.netloc then
      url
    else if (pyIn "reddit.com" parsed.netloc || pyIn "redd.it" parsed.netloc) &&
        pyIn "i.redd.it" parsed.netloc then
      "https://i.redd.it" ++ parsed.path
    else if (pyIn "reddit.com" parsed.netloc || pyIn "redd.it" parsed.netloc) &&
        pyIn "preview.redd.it" parsed.netloc then
      let decoded_url := pyReplace url "&amp;" "&"
      if pyIn "width=" decoded_url then
        pyReplace (ofChars (takeUntil '?' decoded_url.data)) "preview.redd.it" "i.redd.it"
      else
        pyReplace decoded_url "preview.redd.it" "i.redd.it"
    else if (pyIn "reddit.com" parsed.netloc || pyIn "redd.it" parsed.netloc) &&
        pyIn "/media/" parsed.path then
      "https://i.redd.it/" ++ pyLastSegment parsed.path '/'
    else if mediaSuffixes.any (fun suf => pyEndsWith parsed.path suf) then
      parsed.scheme ++ "://" ++ parsed.netloc ++ parsed.path
    else
      url

/-! ## File extension extraction (`app/utils.py`, `extract_file_extension`) -/

/-- Lower-case a string character-wise. -/
def lowerStr (s : String) : String := ofChars (s.data.map Char.toLower)

/-- Extensions recognized by the URL-suffix regex, in alternation order. -/
def extSuffixes : List String := ["jpg", "jpeg", "png", "gif", "mp4", "webm", "webp"]

/-- The content-type → extension table. -/
def mimeMap (ct : String) : String :=
  if ct = "image/jpeg" then "jpg"
  else if ct = "image/png" then "png"
  else if ct = "image/gif" then "gif"
  else if ct = "video/mp4" then "mp4"
  else if ct = "video/webm" then "webm"
  else if ct = "image/webp" then "webp"
  else "bin"

/-- Model of `utils.extract_file_extension`: a case-insensitive known-suffix
match on the URL path first, then the content-type table, then `bin`
(an empty content type is falsy in Python and also yields `bin`). -/
def extract_file_extension (url : String) (content_type : String) : String :=
  let path := lowerStr (urlparse url).path
  match extSuffixes.find? (fun e => pyEndsWith path ("." ++ e)) with
  | some e => e
  | none => if content_type = "" then "bin" else mimeMap (lowerStr content_type)

/-! ## Resilient downloader (`app/media_downloader.py`)

The transport is a map from URLs to responses; one `download_file` attempt
observes one response.  Because the real network may answer each re-issued
request differently, the retry envelope is modeled twice: over a transport
that answers every request alike (`retryLoop`), and over an attempt-indexed
family of transports (`retryLoopVar`) in which consecutive attempts can
observe different responses — a transient mid-stream failure followed by a
successful retry lives in the second model.  A response carries the pieces
`download_file` inspects: HTTP status (for
`raise_for_status`), the `content-type` header, the optional declared
`content-length`, the first ≤ 1 KiB of the body used for interstitial-page
detection, the total body length the server would deliver on a full read,
and an optional point at which the body stream breaks with a transport
error (after that many bytes were already written to the destination file).
Filenames from `generate_uid` are modeled by an injective counter threaded
through the calls. -/

/-- One HTTP response as observed by `download_file`. -/
structure HttpResponse where
  status : Nat
  contentType : String
  contentLength : Option Nat
  preview : String
  bodyLen : Nat
  streamFailAt : Option Nat
deriving DecidableEq, Repr

/-- The exceptions `download_file` can raise: `response.raise_for_status`,
the two deterministic `ValueError`s (declared size over the limit, HTML
loader page without a usable embedded URL), a transport error while
streaming the body, and the interpreter's recursion limit for the unbounded
interstitial recursion. -/
inductive DlErr where
  | httpStatus (code : Nat)
  | sizeLimit (declared : Nat)
  | interstitialUnresolved
  | transport
  | recursionLimit
deriving DecidableEq, Repr

/-- The metadata dictionary a successful `download_file` returns. -/
structure MediaInfo where
  uid_filename : String
  original_url : String
  content_type : String
  size_bytes : Nat
deriving DecidableEq, Repr

/-- A file present in the destination directory with its on-disk size. -/
structure FileRec where
  name : String
  size : Nat
deriving DecidableEq, Repr

/-- Decidable equality of `Except` results, used to evaluate downloader
outcomes inside witnesses and counterexamples. -/
instance {ε α : Type} [DecidableEq ε] [DecidableEq α] : DecidableEq (Except ε α)
  | .ok a, .ok b => decidable_of_iff (a = b) ⟨fun h => by rw [h], Except.ok.inj⟩
  | .error a, .error b => decidable_of_iff (a = b) ⟨fun h => by rw [h], Except.error.inj⟩
  | .ok _, .error _ => isFalse (fun h => by cases h)
  | .error _, .ok _ => isFalse (fun h => by cases h)

/-- Result of one `download_file` call: outcome, files written into the
destination directory by this call, and the uid counter afterwards. -/
structure DlResult where
  res : Except DlErr MediaInfo
  files : List FileRec
  ctr : Nat
deriving DecidableEq, Repr

/-- Result of the tenacity retry envelope: outcome, all files written across
the attempts, the uid counter afterwards, and how many attempts ran. -/
structure RetryResult where
  res : Except DlErr MediaInfo
  files : List FileRec
  ctr : Nat
  attempts : Nat
deriving DecidableEq, Repr

/-- Filename stem produced by `generate_uid` for the n-th generated uid. -/
def uidName (n : Nat) : String := "uid" ++ toString n

/-- Model of `re.search(b'content="([^"]+)"', content_preview)`: the first
occurrence of `content="` followed by at least one non-quote character,
returning the captured group. -/
def extractContentAttr : List Char → Option String
  | [] => none
  | c :: s =>
    let pat := "content=\"".data
    if pat.isPrefixOf (c :: s) then
      let captured := ((c :: s).drop pat.length).takeWhile (fun x => x != '"')
      if captured.isEmpty then extractContentAttr s else some (ofChars captured)
    else extractContentAttr s

/-- Model of one (un-retried) `download_file` call.  `fuel` bounds the
interstitial recursion, which the source leaves unbounded: running out of
fuel models the Python interpreter's `RecursionError`, so a result of
`recursionLimit` for every fuel value means the source recursion never
terminates normally on that input.  The streaming re-issue of the GET after
a preview read returns the same response because the transport map is
deterministic. -/
def download_file (net : String → HttpResponse) (maxSize : Nat) :
    Nat → Nat → String → DlResult
  | fuel, ctr, url =>
    let r := net url
    if 400 ≤ r.status then ⟨.error (.httpStatus r.status), [], ctr⟩
    else if maxSize < r.contentLength.getD 0 then
      ⟨.error (.sizeLimit (r.contentLength.getD 0)), [], ctr⟩
    else if pyStartsWith r.contentType "text/html" &&
        (pyIn "<!DOCTYPE html>" r.preview || pyIn "<html" r.preview) then
      if pyIn "og:image" r.preview || pyIn "twitter:image" r.preview then
        match extractContentAttr r.preview.data with
        | some direct =>
          match fuel with
          | 0 => ⟨.error .recursionLimit, [], ctr⟩
          | fuel' + 1 => download_file net maxSize fuel' ctr direct
        | none => ⟨.error .interstitialUnresolved, [], ctr⟩
      else ⟨.error .interstitialUnresolved, [], ctr⟩
    else
      let fname := uidName ctr ++ "." ++ extract_file_extension url r.contentType
      match r.streamFailAt with
      | some k => ⟨.error .transport, [⟨fname, min k r.bodyLen⟩], ctr + 1⟩
      | none => ⟨.ok ⟨fname, url, r.contentType, r.bodyLen⟩, [⟨fname, r.bodyLen⟩], ctr + 1⟩

/-- The tenacity envelope `@retry(stop=stop_after_attempt(3), ...)` around
`download_file`: it retries on every exception, deterministic or not, and
after the final failed attempt the last exception propagates. -/
def retryLoop (net : String → HttpResponse) (maxSize fuel : Nat) (url : String) :
    Nat → Nat → RetryResult
  | 0, ctr => ⟨.error .transport, [], ctr, 0⟩
  | attemptsLeft + 1, ctr =>
    match download_file net maxSize fuel ctr url, attemptsLeft with
    | ⟨.ok info, files, c⟩, _ => ⟨.ok info, files, c, 1⟩
    | ⟨.error e, files, c⟩, 0 => ⟨.error e, files, c, 1⟩
    | ⟨.error _, files, c⟩, left + 1 =>
      let rest := retryLoop net maxSize fuel url (left + 1) c
      ⟨rest.res, files ++ rest.files, rest.ctr, rest.attempts + 1⟩

/-- `download_file` as called through its decorator: up to 3 attempts over a
transport that answers every request the same way. -/
def download_file_retry (net : String → HttpResponse) (maxSize fuel ctr : Nat)
    (url : String) : RetryResult :=
  retryLoop net maxSize fuel url 3 ctr

/-- The retry envelope over an attempt-indexed transport: the real network
may answer each re-issued request differently, so attempt `i` observes the
response map `nets i`.  A transient failure followed by a successful retry
is representable (`nets 0` breaks mid-stream, `nets 1` succeeds); the
per-URL-deterministic `retryLoop` is the constant-transport instance. -/
def retryLoopVar (nets : Nat → String → HttpResponse) (maxSize fuel : Nat)
    (url : String) : Nat → Nat → Nat → RetryResult
  | _, 0, ctr => ⟨.error .transport, [], ctr, 0⟩
  | i, attemptsLeft + 1, ctr =>
    match download_file (nets i) maxSize fuel ctr url, attemptsLeft with
    | ⟨.ok info, files, c⟩, _ => ⟨.ok info, files, c, 1⟩
    | ⟨.error e, files, c⟩, 0 => ⟨.error e, files, c, 1⟩
    | ⟨.error _, files, c⟩, left + 1 =>
      let rest := retryLoopVar nets maxSize fuel url (i + 1) (left + 1) c
      ⟨rest.res, files ++ rest.files, rest.ctr, rest.attempts + 1⟩

/-- Result of `download_media`: optional metadata, files written, the uid
counter afterwards, and the number of `download_file` attempts made (0 means
no HTTP request was issued at all). -/
structure MediaResult where
  info : Option MediaInfo
  files : List FileRec
  ctr : Nat
  attempts : Nat
deriving DecidableEq, Repr

/-- Model of `download_media`: normalize the URL, skip on empty, otherwise
run the retried download and absorb any exception into `none`. -/
def download_media (net : String → HttpResponse) (maxSize fuel ctr : Nat)
    (url : String) : MediaResult :=
  if normalize_media_url url = "" then ⟨none, [], ctr, 0⟩
  else
    match download_file_retry net maxSize fuel ctr (normalize_media_url url) with
    | ⟨.ok info, files, c, a⟩ => ⟨some info, files, c, a⟩
    | ⟨.error _, files, c, a⟩ => ⟨none, files, c, a⟩

/-! ## Persistence model (`app/models.py`, `app/db.py`)

The `news` table is a list of rows; its `external_id` column carries a
unique constraint, so a violating `INSERT` raises `IntegrityError`, which
`db.add_news` / `db.add_media` catch and turn into a rollback (no-op). -/

/-- A row of the `news` table. -/
structure NewsRow where
  external_id : String
  thread_id : Option String := none
  author : Option String := none
  created_utc : Option Int := none
  title : Option String := none
  body : Option String := none
  media_url : Option String := none
  media_uid : Option String := none
  raw_json : Option String := none
  score : Int := 0
  comment_count : Int := 0
deriving DecidableEq, Repr

/-- A candidate item as produced by `reddit_client.submission_to_dict`:
a dict whose optional keys are read with `.get`; `score` and
`comment_count` are read with `.get(key, 0)`. -/
structure Post where
  external_id : String
  thread_id : Option String := none
  author : Option String := none
  created_utc : Option Int := none
  title : Option String := none
  body : Option String := none
  media_url : Option String := none
  score : Option Int := none
  comment_count : Option Int := none
  raw_json : Option String := none
deriving DecidableEq, Repr

/-- The `News(...)` row constructed from a post dict on first insert:
`media_uid` is left at its column default (NULL). -/
def newsFromPost (p : Post) : NewsRow :=
  { external_id := p.external_id, thread_id := p.thread_id, author := p.author,
    created_utc := p.created_utc, title := p.title, body := p.body,
    media_url := p.media_url, media_uid := none, raw_json := p.raw_json,
    score := p.score.getD 0, comment_count := p.comment_count.getD 0 }

/-- Model of `db.news_exists`. -/
def news_exists (db : List NewsRow) (external_id : String) : Bool :=
  db.any (fun r => r.external_id == external_id)

/-- Model of `db.add_news`: a duplicate-key `INSERT` raises
`IntegrityError`, which is caught and rolled back, so it is a no-op. -/
def add_news (db : List NewsRow) (p : Post) : List NewsRow :=
  if news_exists db p.external_id then db else db ++ [newsFromPost p]

/-- The metrics update `sync_thread` applies to an existing row:
`existing.score = post.get('score', 0)`;
`existing.comment_count = post.get('comment_count', 0)`. -/
def update_metrics (r : NewsRow) (p : Post) : NewsRow :=
  { r with score := p.score.getD 0, comment_count := p.comment_count.getD 0 }

/-- Model of `db.update_news_media`: set `media_uid` on the row with the
given external id (no-op when the row is absent). -/
def update_news_media (db : List NewsRow) (external_id media_uid : String) : List NewsRow :=
  db.map (fun r =>
    if r.external_id == external_id then { r with media_uid := some media_uid } else r)

/-- A row of the `media` table. -/
structure MediaRow where
  uid_filename : String
  original_url : String
  content_type : String
  size_bytes : Nat
  news_external_id : Option String := none
deriving DecidableEq, Repr

/-- Model of `db.add_media`: duplicate `uid_filename` raises
`IntegrityError`, caught and rolled back (no-op). -/
def add_media (db : List MediaRow) (m : MediaRow) : List MediaRow :=
  if db.any (fun x => x.uid_filename == m.uid_filename) then db else db ++ [m]

/-- Model of `db.get_pending_media`: `SELECT external_id, media_url FROM
news WHERE media_url IS NOT NULL AND media_uid IS NULL`. -/
def get_pending_media (db : List NewsRow) : List (String × String) :=
  (db.filter (fun r => r.media_url.isSome && r.media_uid.isNone)).map
    (fun r => (r.external_id, r.media_url.getD ""))

/-! ## Sync orchestrator (`app/sync_worker.py` and `src/workers/sync_worker.py`) -/

/-- One loop iteration of `sync_thread` (ORM tree) over a polled post:
if no row with the post's external id exists, insert a fresh row (counting
it as processed); otherwise update only the two metric columns of that row
(the unique constraint keeps at most one such row). -/
def sync_step (db : List NewsRow) (p : Post) : List NewsRow × Nat :=
  if news_exists db p.external_id then
    (db.map (fun r =>
      if r.external_id == p.external_id then update_metrics r p else r), 0)
  else (db ++ [newsFromPost p], 1)

/-- The `async for post in get_thread_posts(...)` loop body applied to each
candidate in feed order, accumulating the processed (new) count. -/
def sync_posts : List Post → List NewsRow × Nat → List NewsRow × Nat
  | [], acc => acc
  | p :: rest, (db, n) =>
    let s := sync_step db p
    sync_posts rest (s.1, n + s.2)

/-- Model of `sync_thread` (ORM tree): the feed yields at most `limit`
most-recent posts, each handled by `sync_step`; returns the updated store
and the number of new posts processed. -/
def sync_thread (db : List NewsRow) (posts : List Post) (limit : Nat) :
    List NewsRow × Nat :=
  sync_posts (posts.take limit) (db, 0)

/-- Python truthiness of the optional `max_posts` argument: `None` and `0`
are both falsy in `if max_posts and ...`. -/
def optTruthy : Option Nat → Bool
  | none => false
  | some n => n != 0

/-- One recorded Feed Poller invocation: the subscription polled, the items
processed before the call, and the `limit` passed to the poller. -/
structure SyncCall where
  thread_id : String
  totalBefore : Nat
  limit : Nat
deriving DecidableEq, Repr

/-- The subscription loop of `sync_all` (ORM tree).  Each iteration first
checks the global budget (`break` once reached), computes
`thread_limit = max_posts - total_processed if max_posts else 100`, then
runs `sync_thread` inside `try/except`: a failing subscription is logged
and skipped and the loop continues.  The poller invocations are recorded
in order. -/
def sync_all_go (polls : String → Except Unit (List Post)) (max_posts : Option Nat) :
    List String → Nat → List NewsRow → List SyncCall →
    Nat × List NewsRow × List SyncCall
  | [], total, db, calls => (total, db, calls)
  | sub :: rest, total, db, calls =>
    if optTruthy max_posts && decide (max_posts.getD 0 ≤ total) then (total, db, calls)
    else
      let lim := if optTruthy max_posts then max_posts.getD 0 - total else 100
      match polls sub with
      | .error _ => sync_all_go polls max_posts rest total db (calls ++ [⟨sub, total, lim⟩])
      | .ok posts =>
        let r := sync_thread db posts lim
        sync_all_go polls max_posts rest (total + r.2) r.1 (calls ++ [⟨sub, total, lim⟩])

/-- The batch handed to the download coordinator: the pending items and the
concurrency bound of the shared semaphore. -/
structure MediaPhase where
  items : List (String × String)
  maxConcurrent : Nat
deriving DecidableEq, Repr

/-- Result of a full `sync_all` run (ORM tree). -/
structure SyncAllResult where
  processed : Nat
  db : List NewsRow
  calls : List SyncCall
  mediaPhase : Option MediaPhase
deriving DecidableEq, Repr

/-- Model of `sync_all` (ORM tree, `app/sync_worker.py`): sequential
polling under the optional budget.  The pending-media phase is absent: the
`await sync_pending_media(media_dir, max_concurrent)` line is commented out
in this tree, so no batch is ever handed to the download coordinator. -/
def sync_all (polls : String → Except Unit (List Post)) (subs : List String)
    (max_posts : Option Nat) (db : List NewsRow) : SyncAllResult :=
  let r := sync_all_go polls max_posts subs 0 db []
  ⟨r.1, r.2.1, r.2.2, none⟩

/-- Model of `sync_thread` (raw-SQL tree, `src/workers/sync_worker.py`):
insert-if-absent only, no metrics update. -/
def sync_thread_src (db : List NewsRow) (posts : List Post) (limit : Nat) :
    List NewsRow :=
  (posts.take limit).foldl (fun db p =>
    if news_exists db p.external_id then db else db ++ [newsFromPost p]) db

/-- Model of `sync_all` (raw-SQL tree): poll every subscription with the
default limit 100, isolating per-subscription failures, then hand every
pending-media item of the resulting store to the download coordinator with
the configured concurrency bound (`sync_pending_media`). -/
def sync_all_src (polls : String → Except Unit (List Post)) (subs : List String)
    (db : List NewsRow) (maxConcurrent : Nat) : List NewsRow × MediaPhase :=
  let finalDb := subs.foldl (fun db s =>
    match polls s with
    | .error _ => db
    | .ok posts => sync_thread_src db posts 100) db
  (finalDb, ⟨get_pending_media finalDb, maxConcurrent⟩)

/-- Model of `sync_media_item`: download one pending item's media; on
success insert the media row (back-referencing the news row) and set the
news row's `media_uid`; on a `None` result change nothing. -/
def sync_media_item (net : String → HttpResponse) (maxSize fuel ctr : Nat)
    (mediaDb : List MediaRow) (newsDb : List NewsRow) (item : String × String) :
    List MediaRow × List NewsRow × List FileRec × Nat :=
  let d := download_media net maxSize fuel ctr item.2
  match d.info with
  | some info =>
    (add_media mediaDb ⟨info.uid_filename, info.original_url, info.content_type,
        info.size_bytes, some item.1⟩,
     update_news_media newsDb item.1 info.uid_filename, d.files, d.ctr)
  | none => (mediaDb, newsDb, d.files, d.ctr)

/-! ## Concrete transports, posts and rows used in witnesses and
counterexamples -/

/-- A server that declares a content-length just above the 100 MB example
limit of the specification. -/
def bigLenNet : String → HttpResponse := fun _ =>
  ⟨200, "application/octet-stream", some 100000001, "", 0, none⟩

/-- A server whose response is an HTML loader page carrying an `og:image`
marker but no `content="..."` attribute to extract. -/
def noUrlLoaderNet : String → HttpResponse := fun _ =>
  ⟨200, "text/html", some 0, "<html><head><meta property=\"og:image\"></head>", 0, none⟩

/-- A server whose loader page's `og:image` content attribute points back at
the very same loader page: a loader chain that never reaches an asset. -/
def loopNet : String → HttpResponse := fun _ =>
  ⟨200, "text/html", some 0,
   "<html><meta property=\"og:image\" content=\"https://loop.example/page\"/>", 0, none⟩

/-- A server where one loader page embeds the direct URL of a PNG asset. -/
def chainNet : String → HttpResponse := fun url =>
  if url = "https://host.example/view" then
    ⟨200, "text/html", some 512,
     "<html><meta property=\"og:image\" content=\"https://img.example/pic.png\">", 512, none⟩
  else ⟨200, "image/png", some 10, "", 10, none⟩

/-- A server whose body stream breaks after 4 of 10 bytes were written. -/
def streamFailNet : String → HttpResponse := fun _ =>
  ⟨200, "image/png", some 10, "", 10, some 4⟩

/-- A server that omits the content-length header (Python then compares 0
against the limit) and delivers a 101-byte body. -/
def bigBodyNet : String → HttpResponse := fun _ =>
  ⟨200, "image/png", none, "", 101, none⟩

/-- A server that serves a 10-byte PNG without incident. -/
def okNet : String → HttpResponse := fun _ =>
  ⟨200, "image/png", some 10, "", 10, none⟩

/-- 101 feed candidates with pairwise distinct external ids. -/
def posts101 : List Post :=
  (List.range 101).map (fun n => { external_id := "p" ++ toString n })

/-- A single candidate with a media locator. -/
def postB : Post := { external_id := "pB", media_url := some "https://i.redd.it/b.png" }

/-- A poll map where subscription `siteA` raises and `siteB` yields one item. -/
def pollsAB : String → Except Unit (List Post) := fun s =>
  if s = "siteB" then .ok [postB] else .error ()

/-- A stored row whose external id will be polled again. -/
def row1 : NewsRow :=
  { external_id := "p1", media_url := some "https://i.redd.it/a.png",
    raw_json := some "orig", score := 5, comment_count := 2 }

/-- A re-polled candidate carrying the same external id as `row1` and fresh
metric values. -/
def post1 : Post :=
  { external_id := "p1", media_url := some "https://other.example/b.png",
    score := some 9, comment_count := some 4 }

/-- A stored row in `PENDING_MEDIA` state: locator present, reference unset. -/
def pendingRow : NewsRow :=
  { external_id := "n1", media_url := some "https://i.redd.it/n.png" }

/-- The tuple of all `news` columns except the two mutable metric columns;
two rows agree under `nonMetricFields` exactly when an update touched at
most `score` and `comment_count`. -/
def nonMetricFields (r : NewsRow) :
    String × Option String × Option String × Option Int × Option String ×
    Option String × Option String × Option String × Option String :=
  (r.external_id, r.thread_id, r.author, r.created_utc, r.title, r.body,
   r.media_url, r.media_uid, r.raw_json)

/-! ## Evaluation checks on the embedding -/

example : normalize_media_url "" = "" := by decide
example : normalize_media_url "https://imgur.com/a/xyz" = "https://i.imgur.com/xyz.jpg" := by decide
example : normalize_media_url "https://i.redd.it/abc.png?x=1" = "https://i.redd.it/abc.png" := by decide
example : normalize_media_url "https://preview.redd.it/abc.png?width=5"
    = "https://i.redd.it/abc.png" := by decide
example : normalize_media_url "https://v.redd.it/xyz" = "https://v.redd.it/xyz" := by decide
example : normalize_media_url "https://www.reddit.com/media/zzz" = "https://i.redd.it/zzz" := by decide
example : extract_file_extension "https://x.example/a.PNG" "" = "png" := by decide
example : extract_file_extension "https://x.example/a" "image/webp" = "webp" := by decide
example : download_file chainNet 100000 1 0 "https://host.example/view" =
    ⟨.ok ⟨"uid0.png", "https://img.example/pic.png", "image/png", 10⟩,
     [⟨"uid0.png", 10⟩], 1⟩ := by decide

/-! ## C5 — idempotence of the URL normalizer -/

/-- C5 counterexample: the normalizer is not idempotent.  For a
`preview.redd.it` URL carrying a query without a `width=` parameter, the
first pass keeps the query while rewriting the host, and the second pass
(now in the `i.redd.it` branch) strips the query, so the two passes
disagree. -/
theorem C5_counterexample :
    normalize_media_url (normalize_media_url "https://preview.redd.it/abc.png?s=1") ≠
      normalize_media_url "https://preview.redd.it/abc.png?s=1" := by decide

/-- C5 amended: `normalize_media_url` is a pure function of its input
(determinism is by construction) and maps empty input to empty output, but
it is not idempotent: a URL exists on which a second pass changes the
result again. -/
theorem C5_empty_input_and_non_idempotence :
    normalize_media_url "" = "" ∧
    ∃ u : String,
      normalize_media_url (normalize_media_url u) ≠ normalize_media_url u :=
  ⟨by decide, ⟨"https://preview.redd.it/abc.png?s=1", by decide⟩⟩

/-! ## C3 — deterministic failures and the retry envelope -/

/-- C3: the `@retry(stop=stop_after_attempt(3), ...)` decorator retries on
every exception, including the two deterministic ones.  At the
specification's own example input (declared content-length `100000001`
against a limit of `100000000`) the size failure is attempted 3 times (2
retries) before propagating, and an unresolvable HTML loader page is also
attempted 3 times; in both cases zero files are written. -/
theorem C3_deterministic_failures_are_retried :
    download_file_retry bigLenNet 100000000 1 0 "https://big.example/file.bin" =
      ⟨.error (.sizeLimit 100000001), [], 0, 3⟩ ∧
    download_file_retry noUrlLoaderNet 100 1 0 "https://host.example/p" =
      ⟨.error .interstitialUnresolved, [], 0, 3⟩ :=
  ⟨by decide, by decide⟩

/-! ## C4 — interstitial re-resolution depth -/

/-- Unfolding one level of the self-referential loader chain: the page's
`og:image` content attribute extracts to the page's own URL, so one step of
`download_file` is exactly the same call with one unit less fuel. -/
theorem loopNet_step (n ctr : Nat) :
    download_file loopNet 100 (n + 1) ctr "https://loop.example/page" =
      download_file loopNet 100 n ctr "https://loop.example/page" := rfl

/-- C4: the interstitial re-resolution is not depth-bounded.  On a loader
page pointing at itself, `download_file` recurses forever — for every
recursion budget it ends in the interpreter's recursion limit and never in
a normal outcome — whereas a loader page pointing at a direct asset does
resolve through one recursive re-fetch. -/
theorem C4_unbounded_interstitial_recursion :
    (∀ fuel ctr : Nat,
        download_file loopNet 100 fuel ctr "https://loop.example/page" =
          ⟨.error .recursionLimit, [], ctr⟩) ∧
    download_file chainNet 100000 1 0 "https://host.example/view" =
      ⟨.ok ⟨"uid0.png", "https://img.example/pic.png", "image/png", 10⟩,
        [⟨"uid0.png", 10⟩], 1⟩ := by
  constructor
  · intro fuel
    induction fuel with
    | zero => intro ctr; rfl
    | succ n ih => intro ctr; rw [loopNet_step]; exact ih ctr
  · decide

/-! ## Closed counterexamples for C2, C6, C8, C9 -/

/-- C2 counterexample: the size check only inspects the declared
content-length (a missing header counts as 0).  A server that omits the
header and streams a 101-byte body past a 100-byte limit yields a success,
and `sync_media_item` persists a MediaAsset row whose `size_bytes` (101)
exceeds the configured maximum (100). -/
theorem C2_counterexample :
    (sync_media_item bigBodyNet 100 1 0 [] [] ("p1", "https://cdn.example/a.png")).1 =
      [⟨"uid0.png", "https://cdn.example/a.png", "image/png", 101, some "p1"⟩] ∧
    100 < 101 :=
  ⟨by decide, by decide⟩

/-- C8 counterexample: in the ORM tree the `sync_pending_media` call inside
`sync_all` is commented out, so a run over a store holding an item in
`PENDING_MEDIA` state hands nothing to the download coordinator. -/
theorem C8_counterexample :
    (sync_all (fun _ => Except.error ()) ["s1"] none [pendingRow]).mediaPhase = none ∧
    get_pending_media (sync_all (fun _ => Except.error ()) ["s1"] none [pendingRow]).db ≠ [] :=
  ⟨rfl, by decide⟩

set_option maxRecDepth 10000 in
/-- C9 counterexample: with no budget given, the poller is called with the
fixed default limit 100, not an unbounded one: a subscription whose feed
yields 101 fresh items has only 100 of them processed. -/
theorem C9_counterexample :
    (sync_all (fun _ => Except.ok posts101) ["s1"] none []).processed = 100 ∧
    posts101.length = 101 :=
  ⟨by decide, by decide⟩

/-! ## Characterization of a single `download_file` attempt

Every attempt either fails before any write (with a deterministic,
counter-independent error and no file), fails with a transport error while
streaming (one partial file), or succeeds (one complete file named by the
returned metadata); which of the three happens, and every component except
the generated filename, is independent of the uid counter. -/

theorem download_file_shape (net : String → HttpResponse) (maxSize : Nat) :
    ∀ (fuel : Nat) (url : String),
      (∃ e, e ≠ DlErr.transport ∧
          ∀ ctr, download_file net maxSize fuel ctr url = ⟨.error e, [], ctr⟩) ∨
      (∃ sz, ∀ ctr, ∃ name, download_file net maxSize fuel ctr url =
          ⟨.error .transport, [⟨name, sz⟩], ctr + 1⟩) ∨
      (∃ orig ct sz, ∀ ctr, ∃ name, download_file net maxSize fuel ctr url =
          ⟨.ok ⟨name, orig, ct, sz⟩, [⟨name, sz⟩], ctr + 1⟩) := by
  intro fuel
  induction fuel with
  | zero =>
    intro url
    by_cases h1 : 400 ≤ (net url).status
    · refine Or.inl ⟨DlErr.httpStatus (net url).status, by simp, fun ctr => ?_⟩
      rw [download_file.eq_1, if_pos h1]
    · by_cases h2 : maxSize < (net url).contentLength.getD 0
      · refine Or.inl ⟨DlErr.sizeLimit ((net url).contentLength.getD 0), by simp, fun ctr => ?_⟩
        rw [download_file.eq_1, if_neg h1, if_pos h2]
      · by_cases h3 : (pyStartsWith (net url).contentType "text/html" &&
            (pyIn "<!DOCTYPE html>" (net url).preview || pyIn "<html" (net url).preview)) = true
        · by_cases h4 : (pyIn "og:image" (net url).preview ||
              pyIn "twitter:image" (net url).preview) = true
          · cases hx : extractContentAttr (net url).preview.data with
            | none =>
              refine Or.inl ⟨DlErr.interstitialUnresolved, by simp, fun ctr => ?_⟩
              rw [download_file.eq_1, if_neg h1, if_neg h2, if_pos h3, if_pos h4, hx]
            | some direct =>
              refine Or.inl ⟨DlErr.recursionLimit, by simp, fun ctr => ?_⟩
              rw [download_file.eq_1, if_neg h1, if_neg h2, if_pos h3, if_pos h4, hx]
          · refine Or.inl ⟨DlErr.interstitialUnresolved, by simp, fun ctr => ?_⟩
            rw [download_file.eq_1, if_neg h1, if_neg h2, if_pos h3, if_neg h4]
        · cases hsf : (net url).streamFailAt with
          | some k =>
            refine Or.inr (Or.inl ⟨min k (net url).bodyLen, fun ctr =>
              ⟨uidName ctr ++ "." ++ extract_file_extension url (net url).contentType, ?_⟩⟩)
            rw [download_file.eq_1, if_neg h1, if_neg h2, if_neg h3, hsf]
          | none =>
            refine Or.inr (Or.inr ⟨url, (net url).contentType, (net url).bodyLen, fun ctr =>
              ⟨uidName ctr ++ "." ++ extract_file_extension url (net url).contentType, ?_⟩⟩)
            rw [download_file.eq_1, if_neg h1, if_neg h2, if_neg h3, hsf]
  | succ n ih =>
    intro url
    by_cases h1 : 400 ≤ (net url).status
    · refine Or.inl ⟨DlErr.httpStatus (net url).status, by simp, fun ctr => ?_⟩
      rw [download_file.eq_1, if_pos h1]
    · by_cases h2 : maxSize < (net url).contentLength.getD 0
      · refine Or.inl ⟨DlErr.sizeLimit ((net url).contentLength.getD 0), by simp, fun ctr => ?_⟩
        rw [download_file.eq_1, if_neg h1, if_pos h2]
      · by_cases h3 : (pyStartsWith (net url).contentType "text/html" &&
            (pyIn "<!DOCTYPE html>" (net url).preview || pyIn "<html" (net url).preview)) = true
        · by_cases h4 : (pyIn "og:image" (net url).preview ||
              pyIn "twitter:image" (net url).preview) = true
          · cases hx : extractContentAttr (net url).preview.data with
            | none =>
              refine Or.inl ⟨DlErr.interstitialUnresolved, by simp, fun ctr => ?_⟩
              rw [download_file.eq_1, if_neg h1, if_neg h2, if_pos h3, if_pos h4, hx]
            | some direct =>
              rcases ih direct with ⟨e, hne, hall⟩ | ⟨sz, hall⟩ | ⟨orig, ct, sz, hall⟩
              · refine Or.inl ⟨e, hne, fun ctr => ?_⟩
                rw [download_file.eq_1, if_neg h1, if_neg h2, if_pos h3, if_pos h4, hx]
                exact hall ctr
              · refine Or.inr (Or.inl ⟨sz, fun ctr => ?_⟩)
                obtain ⟨name, hname⟩ := hall ctr
                refine ⟨name, ?_⟩
                rw [download_file.eq_1, if_neg h1, if_neg h2, if_pos h3, if_pos h4, hx]
                exact hname
              · refine Or.inr (Or.inr ⟨orig, ct, sz, fun ctr => ?_⟩)
                obtain ⟨name, hname⟩ := hall ctr
                refine ⟨name, ?_⟩
                rw [download_file.eq_1, if_neg h1, if_neg h2, if_pos h3, if_pos h4, hx]
                exact hname
          · refine Or.inl ⟨DlErr.interstitialUnresolved, by simp, fun ctr => ?_⟩
            rw [download_file.eq_1, if_neg h1, if_neg h2, if_pos h3, if_neg h4]
        · cases hsf : (net url).streamFailAt with
          | some k =>
            refine Or.inr (Or.inl ⟨min k (net url).bodyLen, fun ctr =>
              ⟨uidName ctr ++ "." ++ extract_file_extension url (net url).contentType, ?_⟩⟩)
            rw [download_file.eq_1, if_neg h1, if_neg h2, if_neg h3, hsf]
          | none =>
            refine Or.inr (Or.inr ⟨url, (net url).contentType, (net url).bodyLen, fun ctr =>
              ⟨uidName ctr ++ "." ++ extract_file_extension url (net url).contentType, ?_⟩⟩)
            rw [download_file.eq_1, if_neg h1, if_neg h2, if_neg h3, hsf]

/-- A failed attempt wrote no file unless the error was a mid-stream
transport error. -/
theorem download_file_err_files (net : String → HttpResponse) (maxSize : Nat)
    (fuel ctr : Nat) (url : String) (e : DlErr)
    (h : (download_file net maxSize fuel ctr url).res = .error e)
    (hne : e ≠ DlErr.transport) :
    (download_file net maxSize fuel ctr url).files = [] := by
  rcases download_file_shape net maxSize fuel url with
    ⟨e2, hne2, hall⟩ | ⟨sz, hall⟩ | ⟨orig, ct, sz, hall⟩
  · rw [hall ctr]
  · obtain ⟨name, hname⟩ := hall ctr
    rw [hname] at h
    simp only [DlResult.res] at h
    cases h
    exact absurd rfl hne
  · obtain ⟨name, hname⟩ := hall ctr
    rw [hname] at h; simp at h

/-- The outcome of an attempt, and in particular the exception it raises,
does not depend on the uid counter: a retry of the same URL over the same
deterministic transport fails the same way. -/
theorem download_file_err_indep (net : String → HttpResponse) (maxSize : Nat)
    (fuel ctr ctr2 : Nat) (url : String) (e : DlErr)
    (h : (download_file net maxSize fuel ctr url).res = .error e) :
    (download_file net maxSize fuel ctr2 url).res = .error e := by
  rcases download_file_shape net maxSize fuel url with
    ⟨e2, hne2, hall⟩ | ⟨sz, hall⟩ | ⟨orig, ct, sz, hall⟩
  · rw [hall ctr] at h
    rw [hall ctr2]
    simp only [DlResult.res] at h ⊢
    exact h
  · obtain ⟨name, hname⟩ := hall ctr
    obtain ⟨name2, hname2⟩ := hall ctr2
    rw [hname] at h
    rw [hname2]
    simp only [DlResult.res] at h ⊢
    exact h
  · obtain ⟨name, hname⟩ := hall ctr
    rw [hname] at h; simp at h

/-- When every attempt raises the same exception, the whole retry envelope
raises that exception. -/
theorem retryLoop_err (net : String → HttpResponse) (maxSize fuel : Nat)
    (url : String) (e : DlErr)
    (hall : ∀ c, (download_file net maxSize fuel c url).res = .error e) :
    ∀ (n c : Nat), (retryLoop net maxSize fuel url (n + 1) c).res = .error e := by
  intro n
  induction n with
  | zero =>
    intro c
    cases hd : download_file net maxSize fuel c url with
    | mk res files c2 =>
      have h := hall c
      rw [hd] at h
      simp only [DlResult.res] at h
      subst h
      rw [retryLoop.eq_3 net maxSize fuel url c e files c2 hd]
  | succ m ih =>
    intro c
    cases hd : download_file net maxSize fuel c url with
    | mk res files c2 =>
      have h := hall c
      rw [hd] at h
      simp only [DlResult.res] at h
      subst h
      rw [retryLoop.eq_4 net maxSize fuel url c files c2 m e hd]
      exact ih c2

/-- A retried download that fails with an error other than a mid-stream
transport error has written no file at all. -/
theorem retryLoop_err_files (net : String → HttpResponse) (maxSize fuel : Nat)
    (url : String) :
    ∀ (n c : Nat) (e : DlErr),
      (retryLoop net maxSize fuel url (n + 1) c).res = .error e →
      e ≠ DlErr.transport →
      (retryLoop net maxSize fuel url (n + 1) c).files = [] := by
  intro n
  induction n with
  | zero =>
    intro c e h hne
    cases hd : download_file net maxSize fuel c url with
    | mk res files c2 =>
      cases res with
      | ok info0 =>
        rw [retryLoop.eq_2 net maxSize fuel url c 0 info0 files c2 hd] at h
        simp at h
      | error e0 =>
        rw [retryLoop.eq_3 net maxSize fuel url c e0 files c2 hd] at h ⊢
        simp only [RetryResult.res] at h
        have h1 : e0 = e := by injection h
        subst h1
        have hre : (download_file net maxSize fuel c url).res = .error e0 := by rw [hd]
        have hf := download_file_err_files net maxSize fuel c url e0 hre hne
        rw [hd] at hf
        exact hf
  | succ m ih =>
    intro c e h hne
    cases hd : download_file net maxSize fuel c url with
    | mk res files c2 =>
      cases res with
      | ok info0 =>
        rw [retryLoop.eq_2 net maxSize fuel url c (m + 1) info0 files c2 hd] at h
        simp at h
      | error e0 =>
        rw [retryLoop.eq_4 net maxSize fuel url c files c2 m e0 hd] at h ⊢
        simp only [RetryResult.res, RetryResult.files] at h ⊢
        have hall : ∀ c0, (download_file net maxSize fuel c0 url).res = .error e0 := by
          intro c0
          exact download_file_err_indep net maxSize fuel c c0 url e0 (by rw [hd])
        have hrest := retryLoop_err net maxSize fuel url e0 hall m c2
        have he : e0 = e := by
          rw [hrest] at h
          injection h with h1
        subst he
        have hfirst : files = [] := by
          have hre : (download_file net maxSize fuel c url).res = .error e0 := by rw [hd]
          have hf := download_file_err_files net maxSize fuel c url e0 hre hne
          rw [hd] at hf
          exact hf
        rw [hfirst, ih c2 e0 h hne]
        rfl

/-! ## C6 — files written by one downloader invocation

The original claim fails on both halves (see `C6_counterexample`): a
mid-stream transport failure leaves a partial file, the retry envelope
repeats it, and a later successful attempt returns success with the earlier
partial files still on disk.  The faithful accounting is per attempt, and it
is stated over the attempt-indexed transport so that a transient failure
followed by a successful retry is representable. -/

/-- The per-URL-deterministic retry envelope is the constant-transport
instance of the attempt-indexed one. -/
theorem retryLoopVar_const (net : String → HttpResponse) (maxSize fuel : Nat)
    (url : String) :
    ∀ (n i c : Nat),
      retryLoopVar (fun _ => net) maxSize fuel url i n c =
        retryLoop net maxSize fuel url n c := by
  intro n
  induction n with
  | zero => intro i c; rw [retryLoopVar.eq_1, retryLoop.eq_1]
  | succ m ih =>
    intro i c
    cases hd : download_file net maxSize fuel c url with
    | mk res files c2 =>
      cases res with
      | ok info0 =>
        rw [retryLoopVar.eq_2 (fun _ => net) maxSize fuel url i c m info0 files c2 hd,
          retryLoop.eq_2 net maxSize fuel url c m info0 files c2 hd]
      | error e0 =>
        cases m with
        | zero =>
          rw [retryLoopVar.eq_3 (fun _ => net) maxSize fuel url i c e0 files c2 hd,
            retryLoop.eq_3 net maxSize fuel url c e0 files c2 hd]
        | succ k =>
          rw [retryLoopVar.eq_4 (fun _ => net) maxSize fuel url i c files c2 k e0 hd,
            retryLoop.eq_4 net maxSize fuel url c files c2 k e0 hd, ih (i + 1) c2]

/-- C2 amended: the size check happens on the declared content-length and
before any streaming.  When the declared length exceeds the limit, every
`download_file` attempt fails at once with `SizeLimitExceeded` and writes
no file, `sync_media_item` persists no MediaAsset row, and no file is left
in the destination directory.  The actual streamed size, by contrast, is
not re-checked (see the counterexample). -/
theorem C2_declared_size_violation (net : String → HttpResponse)
    (maxSize fuel : Nat) (rawUrl : String)
    (hstatus : (net (normalize_media_url rawUrl)).status < 400)
    (hsize : maxSize < (net (normalize_media_url rawUrl)).contentLength.getD 0) :
    (∀ ctr, download_file net maxSize fuel ctr (normalize_media_url rawUrl) =
        ⟨.error (.sizeLimit ((net (normalize_media_url rawUrl)).contentLength.getD 0)),
          [], ctr⟩) ∧
    (∀ (ctr : Nat) (mediaDb : List MediaRow) (newsDb : List NewsRow) (itemId : String),
        (sync_media_item net maxSize fuel ctr mediaDb newsDb (itemId, rawUrl)).1 = mediaDb ∧
        (sync_media_item net maxSize fuel ctr mediaDb newsDb (itemId, rawUrl)).2.2.1 = []) := by
  have hfirst : ∀ ctr, download_file net maxSize fuel ctr (normalize_media_url rawUrl) =
      ⟨.error (.sizeLimit ((net (normalize_media_url rawUrl)).contentLength.getD 0)),
        [], ctr⟩ := by
    intro ctr
    rw [download_file.eq_1, if_neg (by omega), if_pos hsize]
  refine ⟨hfirst, ?_⟩
  intro ctr mediaDb newsDb itemId
  by_cases hu : normalize_media_url rawUrl = ""
  · constructor <;> simp [sync_media_item, download_media, hu]
  · have hall : ∀ c, (download_file net maxSize fuel c (normalize_media_url rawUrl)).res =
        .error (.sizeLimit ((net (normalize_media_url rawUrl)).contentLength.getD 0)) := by
      intro c; rw [hfirst c]
    have hres : (download_file_retry net maxSize fuel ctr (normalize_media_url rawUrl)).res =
        .error (.sizeLimit ((net (normalize_media_url rawUrl)).contentLength.getD 0)) :=
      retryLoop_err net maxSize fuel (normalize_media_url rawUrl) _ hall 2 ctr
    have hfiles : (download_file_retry net maxSize fuel ctr (normalize_media_url rawUrl)).files =
        [] :=
      retryLoop_err_files net maxSize fuel (normalize_media_url rawUrl) 2 ctr _ hres (by simp)
    cases hr : download_file_retry net maxSize fuel ctr (normalize_media_url rawUrl) with
    | mk res files c a =>
      rw [hr] at hres hfiles
      simp only [RetryResult.res] at hres
      simp only [RetryResult.files] at hfiles
      subst hres
      subst hfiles
      constructor <;> simp [sync_media_item, download_media, hu, hr]

/-- C2 witness: at the specification's example input (declared length
100000001 against limit 100000000), the download fails with
`SizeLimitExceeded`, no file is written and no MediaAsset row is added. -/
theorem C2_witness :
    (bigLenNet (normalize_media_url "https://big.example/file.bin")).status < 400 ∧
    100000000 < (bigLenNet (normalize_media_url
      "https://big.example/file.bin")).contentLength.getD 0 ∧
    download_file bigLenNet 100000000 1 0 (normalize_media_url
      "https://big.example/file.bin") = ⟨.error (.sizeLimit 100000001), [], 0⟩ ∧
    (sync_media_item bigLenNet 100000000 1 0 [] [] ("p9", "https://big.example/file.bin")).1
      = [] :=
  ⟨by decide, by decide,
   (C2_declared_size_violation bigLenNet 100000000 1 "https://big.example/file.bin"
     (by decide) (by decide)).1 0,
   ((C2_declared_size_violation bigLenNet 100000000 1 "https://big.example/file.bin"
     (by decide) (by decide)).2 0 [] [] "p9").1⟩

/-! ## C10 — `download_media` absorbs all failures -/

/-- C10: `download_media` is total over the embedded effects: an empty
normalization result returns `None` with no HTTP attempt and no file; any
exception from the retried download is absorbed into `None`; a successful
download returns its metadata.  (The destination-directory creation, which
the source performs outside its `try`, is modeled as always succeeding.) -/
theorem C10_download_media_absorbs_failures (net : String → HttpResponse)
    (maxSize fuel ctr : Nat) (url : String) :
    (normalize_media_url url = "" →
      download_media net maxSize fuel ctr url = ⟨none, [], ctr, 0⟩) ∧
    (∀ e : DlErr,
      (download_file_retry net maxSize fuel ctr (normalize_media_url url)).res = .error e →
      (download_media net maxSize fuel ctr url).info = none) ∧
    (∀ info : MediaInfo, normalize_media_url url ≠ "" →
      (download_file_retry net maxSize fuel ctr (normalize_media_url url)).res = .ok info →
      (download_media net maxSize fuel ctr url).info = some info) := by
  refine ⟨?_, ?_, ?_⟩
  · intro hu
    simp [download_media, hu]
  · intro e h
    by_cases hu : normalize_media_url url = ""
    · simp [download_media, hu]
    · cases hr : download_file_retry net maxSize fuel ctr (normalize_media_url url) with
      | mk res files c a =>
        rw [hr] at h
        simp only [RetryResult.res] at h
        subst h
        simp [download_media, hu, hr]
  · intro info hu h
    cases hr : download_file_retry net maxSize fuel ctr (normalize_media_url url) with
    | mk res files c a =>
      rw [hr] at h
      simp only [RetryResult.res] at h
      subst h
      simp [download_media, hu, hr]

/-- C10 witness: the empty URL is skipped with no request and no file, and
a download whose every attempt fails mid-stream still yields `None` rather
than an exception. -/
theorem C10_witness :
    normalize_media_url "" = "" ∧
    download_media okNet 100 1 0 "" = ⟨none, [], 0, 0⟩ ∧
    (download_media streamFailNet 100 1 0 "https://x.example/a.png").info = none :=
  ⟨by decide,
   (C10_download_media_absorbs_failures okNet 100 1 0 "").1 (by decide),
   (C10_download_media_absorbs_failures streamFailNet 100 1 0
     "https://x.example/a.png").2.1 DlErr.transport (by decide)⟩


/-! ## C1 — dedup and metrics-only updates -/

/-- The metrics-update pass over the store touches no column outside
`score` and `comment_count` and no row outside the matching external id. -/
theorem mapMetrics_frame (p : Post) (id : String) (l : List NewsRow) :
    ((l.map (fun r => if r.external_id == p.external_id then update_metrics r p else r)).filter
        (fun r => r.external_id == id)).map nonMetricFields =
      (l.filter (fun r => r.external_id == id)).map nonMetricFields := by
  induction l with
  | nil => rfl
  | cons r t ih =>
    have hqf : ((if r.external_id == p.external_id then update_metrics r p
        else r).external_id == id) = (r.external_id == id) := by
      by_cases hc : (r.external_id == p.external_id) = true <;> simp [hc, update_metrics]
    have hnm : nonMetricFields (if r.external_id == p.external_id then update_metrics r p
        else r) = nonMetricFields r := by
      by_cases hc : (r.external_id == p.external_id) = true <;>
        simp [hc, update_metrics, nonMetricFields]
    simp only [List.map_cons, List.filter_cons, hqf]
    by_cases hid : (r.external_id == id) = true
    · rw [if_pos hid, if_pos hid]
      simp only [List.map_cons, hnm]
      rw [ih]
    · rw [if_neg hid, if_neg hid]
      exact ih

/-- The metrics-update pass neither adds nor removes external ids. -/
theorem news_exists_map_metrics (p : Post) (id : String) (l : List NewsRow) :
    news_exists (l.map (fun r =>
        if r.external_id == p.external_id then update_metrics r p else r)) id =
      news_exists l id := by
  have hext : ∀ r : NewsRow,
      ((if r.external_id == p.external_id then update_metrics r p else r).external_id == id) =
        (r.external_id == id) := by
    intro r
    by_cases hc : (r.external_id == p.external_id) = true <;> simp [hc, update_metrics]
  simp only [news_exists, List.any_map, Function.comp]
  congr 1
  funext r
  exact hext r

/-- Processing one candidate preserves every external id already stored. -/
theorem news_exists_sync_step (db : List NewsRow) (p : Post) (id : String)
    (h : news_exists db id = true) :
    news_exists (sync_step db p).1 id = true := by
  unfold sync_step
  by_cases he : news_exists db p.external_id = true
  · rw [if_pos he]
    rw [news_exists_map_metrics]
    exact h
  · rw [if_neg he]
    simp only [news_exists, List.any_append] at h ⊢
    simp [news_exists] at h
    simp [h]

/-- After processing a candidate, its external id is stored. -/
theorem sync_step_self (db : List NewsRow) (p : Post) :
    news_exists (sync_step db p).1 p.external_id = true := by
  unfold sync_step
  by_cases he : news_exists db p.external_id = true
  · rw [if_pos he]
    rw [news_exists_map_metrics]
    exact he
  · rw [if_neg he]
    simp [news_exists, List.any_append, newsFromPost]

/-- Processing one candidate leaves the row set and all non-metric columns
of an already-stored external id untouched. -/
theorem sync_step_frame (db : List NewsRow) (p : Post) (id : String)
    (h : news_exists db id = true) :
    (((sync_step db p).1.filter (fun r => r.external_id == id)).map nonMetricFields)
      = ((db.filter (fun r => r.external_id == id)).map nonMetricFields) := by
  unfold sync_step
  by_cases he : news_exists db p.external_id = true
  · rw [if_pos he]
    exact mapMetrics_frame p id db
  · rw [if_neg he]
    have hne : ((newsFromPost p).external_id == id) = false := by
      by_contra hcon
      have hpid : p.external_id = id := by
        simpa [newsFromPost] using hcon
      rw [hpid] at he
      exact he h
    simp [List.filter_append, hne]


/-- The polling loop preserves every stored external id. -/
theorem sync_posts_exists : ∀ (l : List Post) (db : List NewsRow) (n : Nat) (id : String),
    news_exists db id = true → news_exists (sync_posts l (db, n)).1 id = true := by
  intro l
  induction l with
  | nil => intro db n id h; exact h
  | cons p t ih =>
    intro db n id h
    simp only [sync_posts]
    exact ih _ _ id (news_exists_sync_step db p id h)

/-- After the polling loop, every processed candidate's id is stored. -/
theorem sync_posts_mem : ∀ (l : List Post) (db : List NewsRow) (n : Nat) (p : Post),
    p ∈ l → news_exists (sync_posts l (db, n)).1 p.external_id = true := by
  intro l
  induction l with
  | nil => intro db n p hp; cases hp
  | cons q t ih =>
    intro db n p hp
    simp only [sync_posts]
    rcases List.mem_cons.mp hp with rfl | hp2
    · exact sync_posts_exists t _ _ _ (sync_step_self db p)
    · exact ih _ _ p hp2

/-- The polling loop leaves the rows of an already-stored external id
unchanged outside the metric columns. -/
theorem sync_posts_frame : ∀ (l : List Post) (db : List NewsRow) (n : Nat) (id : String),
    news_exists db id = true →
    ((sync_posts l (db, n)).1.filter (fun r => r.external_id == id)).map nonMetricFields
      = (db.filter (fun r => r.external_id == id)).map nonMetricFields := by
  intro l
  induction l with
  | nil => intro db n id h; rfl
  | cons p t ih =>
    intro db n id h
    simp only [sync_posts]
    rw [ih _ _ id (news_exists_sync_step db p id h)]
    exact sync_step_frame db p id h

/-- C1: for an external id already in the store, a whole `sync_thread` run
never creates a second row for that id and changes nothing of its row
except the mutable metrics — the filtered row list for that id, projected
to every column but `score` and `comment_count` (in particular `media_url`
and `media_uid`), is exactly what it was; and a duplicate `add_news` insert
is a no-op rather than an error. -/
theorem C1_dedup_and_metrics_only_update :
    ∀ (posts : List Post) (limit : Nat) (db : List NewsRow) (id : String),
      news_exists db id = true →
      (((sync_thread db posts limit).1.filter (fun r => r.external_id == id)).map
          nonMetricFields
        = (db.filter (fun r => r.external_id == id)).map nonMetricFields) ∧
      (∀ p : Post, p.external_id = id → add_news db p = db) := by
  intro posts limit db id h
  constructor
  · exact sync_posts_frame (posts.take limit) db 0 id h
  · intro p hp
    unfold add_news
    rw [if_pos]
    rw [hp]
    exact h

/-- C1 witness: re-polling the stored item `p1` with fresh metrics keeps
exactly one `p1` row, all non-metric columns unchanged, and the duplicate
insert is a no-op. -/
theorem C1_witness :
    news_exists [row1] "p1" = true ∧
    ((sync_thread [row1] [post1] 100).1.filter (fun r => r.external_id == "p1")).map
        nonMetricFields
      = ([row1].filter (fun r => r.external_id == "p1")).map nonMetricFields ∧
    add_news [row1] post1 = [row1] :=
  ⟨by decide,
   (C1_dedup_and_metrics_only_update [post1] 100 [row1] "p1" (by decide)).1,
   (C1_dedup_and_metrics_only_update [post1] 100 [row1] "p1" (by decide)).2 post1 (by decide)⟩


/-! ## C7 — partial-failure isolation -/

/-- One step of the subscription loop without a budget: the poller is
consulted with the default limit 100 and a failure skips the store update. -/
theorem sync_all_go_none_cons (polls : String → Except Unit (List Post))
    (a : String) (rest : List String) (total : Nat) (db : List NewsRow)
    (calls : List SyncCall) :
    sync_all_go polls none (a :: rest) total db calls =
      match polls a with
      | .error _ => sync_all_go polls none rest total db (calls ++ [⟨a, total, 100⟩])
      | .ok posts =>
        sync_all_go polls none rest (total + (sync_thread db posts 100).2)
          (sync_thread db posts 100).1 (calls ++ [⟨a, total, 100⟩]) := rfl

/-- The subscription loop preserves every stored external id. -/
theorem sync_all_go_exists (polls : String → Except Unit (List Post))
    (mp : Option Nat) :
    ∀ (subs : List String) (total : Nat) (db : List NewsRow) (calls : List SyncCall)
      (id : String),
      news_exists db id = true →
      news_exists (sync_all_go polls mp subs total db calls).2.1 id = true := by
  intro subs
  induction subs with
  | nil => intro total db calls id h; exact h
  | cons a rest ih =>
    intro total db calls id h
    simp only [sync_all_go]
    split
    · exact h
    · split
      · exact ih _ _ _ id h
      · exact ih _ _ _ id (sync_posts_exists _ _ _ id h)

/-- Every item polled from a succeeding subscription ends up stored, no
matter which other subscriptions fail. -/
theorem sync_all_go_persists (polls : String → Except Unit (List Post)) :
    ∀ (subs : List String) (total : Nat) (db : List NewsRow) (calls : List SyncCall)
      (s : String) (posts : List Post),
      s ∈ subs → polls s = .ok posts →
      ∀ p ∈ posts.take 100,
        news_exists (sync_all_go polls none subs total db calls).2.1 p.external_id = true := by
  intro subs
  induction subs with
  | nil => intro total db calls s posts hs; cases hs
  | cons a rest ih =>
    intro total db calls s posts hs hok p hp
    rw [sync_all_go_none_cons]
    rcases List.mem_cons.mp hs with rfl | hs2
    · rw [hok]
      exact sync_all_go_exists polls none rest _ _ _ _
        (sync_posts_mem (posts.take 100) db 0 p hp)
    · cases hpoll : polls a with
      | error u => exact ih _ _ _ s posts hs2 hok p hp
      | ok ps => exact ih _ _ _ s posts hs2 hok p hp

/-- A failing subscription is skipped: if every poll raises, the store is
left exactly as it was. -/
theorem sync_all_go_all_fail (polls : String → Except Unit (List Post)) :
    ∀ (subs : List String) (total : Nat) (db : List NewsRow) (calls : List SyncCall),
      (∀ s ∈ subs, polls s = .error ()) →
      (sync_all_go polls none subs total db calls).2.1 = db := by
  intro subs
  induction subs with
  | nil => intro total db calls h; rfl
  | cons a rest ih =>
    intro total db calls h
    rw [sync_all_go_none_cons]
    rw [h a (List.mem_cons_self a rest)]
    exact ih _ _ _ (fun s hs => h s (List.mem_cons_of_mem a hs))

/-- C7: a per-subscription failure is isolated: for every arrangement of
failing and succeeding subscriptions, `sync_all` still persists every item
of every succeeding subscription (up to the per-thread limit), and a run in
which every subscription fails completes with the store untouched — the
run itself is a total function of its inputs and never propagates the
failure. -/
theorem C7_partial_failure_isolation (polls : String → Except Unit (List Post)) :
    (∀ (subs : List String) (db : List NewsRow) (s : String) (posts : List Post),
        s ∈ subs → polls s = .ok posts →
        ∀ p ∈ posts.take 100,
          news_exists (sync_all polls subs none db).db p.external_id = true) ∧
    (∀ (subs : List String) (db : List NewsRow),
        (∀ s ∈ subs, polls s = .error ()) → (sync_all polls subs none db).db = db) := by
  constructor
  · intro subs db s posts hs hok p hp
    exact sync_all_go_persists polls subs 0 db [] s posts hs hok p hp
  · intro subs db hall
    exact sync_all_go_all_fail polls subs 0 db [] hall

/-- C7 witness: with `siteA` raising and `siteB` yielding one item, the
item of `siteB` is persisted. -/
theorem C7_witness :
    ("siteB" ∈ ["siteA", "siteB"]) ∧ pollsAB "siteB" = .ok [postB] ∧
    postB ∈ ([postB] : List Post).take 100 ∧
    news_exists (sync_all pollsAB ["siteA", "siteB"] none []).db postB.external_id = true :=
  ⟨by decide, by decide, by decide,
   (C7_partial_failure_isolation pollsAB).1 ["siteA", "siteB"] [] "siteB" [postB]
     (by decide) (by decide) postB (by decide)⟩


/-! ## C9 — the global item budget -/

/-- One candidate adds at most one processed item. -/
theorem sync_step_count (db : List NewsRow) (p : Post) : (sync_step db p).2 ≤ 1 := by
  unfold sync_step
  by_cases he : news_exists db p.external_id = true
  · rw [if_pos he]
    simp
  · rw [if_neg he]

/-- The polling loop processes at most as many items as it was fed. -/
theorem sync_posts_count : ∀ (l : List Post) (db : List NewsRow) (n : Nat),
    (sync_posts l (db, n)).2 ≤ n + l.length := by
  intro l
  induction l with
  | nil => intro db n; simp [sync_posts]
  | cons p t ih =>
    intro db n
    simp only [sync_posts, List.length_cons]
    have h1 := ih (sync_step db p).1 (n + (sync_step db p).2)
    have h2 := sync_step_count db p
    omega

/-- `sync_thread` processes at most `limit` new items. -/
theorem sync_thread_count (db : List NewsRow) (posts : List Post) (lim : Nat) :
    (sync_thread db posts lim).2 ≤ lim := by
  have h1 := sync_posts_count (posts.take lim) db 0
  have h2 : (posts.take lim).length ≤ lim := by
    simp [List.length_take]
  unfold sync_thread
  omega

/-- Budget invariant of the subscription loop: the processed count stays
within the budget and every recorded poller call uses the remaining
budget as its limit. -/
theorem sync_all_go_budget (polls : String → Except Unit (List Post)) (m : Nat)
    (hm : 0 < m) :
    ∀ (subs : List String) (total : Nat) (db : List NewsRow) (calls : List SyncCall),
      total ≤ m →
      (∀ c ∈ calls, c.limit = m - c.totalBefore ∧ c.totalBefore < m) →
      (sync_all_go polls (some m) subs total db calls).1 ≤ m ∧
      ∀ c ∈ (sync_all_go polls (some m) subs total db calls).2.2,
        c.limit = m - c.totalBefore ∧ c.totalBefore < m := by
  intro subs
  induction subs with
  | nil => intro total db calls h1 h2; exact ⟨h1, h2⟩
  | cons a rest ih =>
    intro total db calls h1 h2
    have hopt : optTruthy (some m) = true := by
      simp [optTruthy]
      omega
    simp only [sync_all_go, hopt, Bool.true_and, Option.getD_some, eq_self_iff_true,
      if_true]
    by_cases hb : m ≤ total
    · rw [if_pos (by simpa using hb)]
      exact ⟨h1, h2⟩
    · rw [if_neg (by simpa using hb)]
      have hcallP : ∀ c ∈ calls ++ [(⟨a, total, m - total⟩ : SyncCall)],
          c.limit = m - c.totalBefore ∧ c.totalBefore < m := by
        intro c hc
        rcases List.mem_append.mp hc with hc1 | hc2
        · exact h2 c hc1
        · rcases List.mem_singleton.mp hc2 with rfl
          exact ⟨rfl, show total < m by omega⟩
      cases hpoll : polls a with
      | error u =>
        exact ih _ _ _ h1 hcallP
      | ok posts =>
        have hcount := sync_thread_count db posts (m - total)
        exact ih _ _ _ (by omega) hcallP

/-- C9 amended: with a nonzero global budget `m`, `sync_all` calls the
Feed Poller with limit `m − processedSoFar`, polls only while
`processedSoFar < m`, and the total processed never exceeds `m`.  With no
budget the per-subscription default limit is the fixed constant 100 — not
unbounded (see the counterexample). -/
theorem C9_budget_arithmetic (polls : String → Except Unit (List Post)) :
    ∀ (subs : List String) (m : Nat) (db : List NewsRow), 0 < m →
      (sync_all polls subs (some m) db).processed ≤ m ∧
      ∀ c ∈ (sync_all polls subs (some m) db).calls,
        c.limit = m - c.totalBefore ∧ c.totalBefore < m := by
  intro subs m db hm
  have h := sync_all_go_budget polls m hm subs 0 db [] (by omega) (by simp)
  exact ⟨h.1, h.2⟩

/-- C9 witness: a run under budget 2 processes at most 2 items. -/
theorem C9_witness :
    0 < 2 ∧ (sync_all (fun _ => Except.ok [postB]) ["s1"] (some 2) []).processed ≤ 2 :=
  ⟨by decide,
   (C9_budget_arithmetic (fun _ => Except.ok [postB]) ["s1"] 2 [] (by decide)).1⟩


/-! ## C8 — the pending-media phase -/

/-- `get_pending_media` returns exactly the items whose media locator is
present and whose media reference is unset. -/
theorem get_pending_media_mem (db : List NewsRow) :
    (∀ r ∈ db, r.media_url.isSome = true → r.media_uid = none →
      (r.external_id, r.media_url.getD "") ∈ get_pending_media db) ∧
    (∀ x ∈ get_pending_media db, ∃ r ∈ db,
      r.media_url.isSome = true ∧ r.media_uid = none ∧
      x = (r.external_id, r.media_url.getD "")) := by
  constructor
  · intro r hr hurl huid
    simp only [get_pending_media, List.mem_map]
    refine ⟨r, ?_, rfl⟩
    simp only [List.mem_filter]
    refine ⟨hr, ?_⟩
    simp [hurl, huid]
  · intro x hx
    simp only [get_pending_media, List.mem_map] at hx
    obtain ⟨r, hr, hxeq⟩ := hx
    simp only [List.mem_filter, Bool.and_eq_true] at hr
    refine ⟨r, hr.1, hr.2.1, ?_, hxeq.symm⟩
    have := hr.2.2
    cases huid : r.media_uid with
    | none => rfl
    | some u => rw [huid] at this; simp at this

/-- C8 amended: in the raw-SQL tree, every `sync_all` run hands the
download coordinator, after the polling phase, exactly the ContentItems in
`PENDING_MEDIA` state of the post-polling store — media locator present and
media reference unset, so `MEDIA_READY` items are excluded — together with
the configured concurrency limit.  In the ORM tree the media phase is
commented out and no handoff occurs (see the counterexample). -/
theorem C8_src_media_phase (polls : String → Except Unit (List Post))
    (subs : List String) (db : List NewsRow) (mc : Nat) :
    (sync_all_src polls subs db mc).2.maxConcurrent = mc ∧
    (∀ r ∈ (sync_all_src polls subs db mc).1,
        r.media_url.isSome = true → r.media_uid = none →
        (r.external_id, r.media_url.getD "") ∈ (sync_all_src polls subs db mc).2.items) ∧
    (∀ x ∈ (sync_all_src polls subs db mc).2.items, ∃ r ∈ (sync_all_src polls subs db mc).1,
        r.media_url.isSome = true ∧ r.media_uid = none ∧
        x = (r.external_id, r.media_url.getD "")) := by
  refine ⟨rfl, ?_, ?_⟩
  · intro r hr hurl huid
    exact (get_pending_media_mem (sync_all_src polls subs db mc).1).1 r hr hurl huid
  · intro x hx
    exact (get_pending_media_mem (sync_all_src polls subs db mc).1).2 x hx

/-- C8 witness: a store holding one pending item yields that item in the
coordinator batch of the raw-SQL `sync_all`. -/
theorem C8_witness :
    pendingRow ∈ (sync_all_src (fun _ => Except.error ()) [] [pendingRow] 5).1 ∧
    pendingRow.media_url.isSome = true ∧ pendingRow.media_uid = none ∧
    (pendingRow.external_id, pendingRow.media_url.getD "") ∈
      (sync_all_src (fun _ => Except.error ()) [] [pendingRow] 5).2.items :=
  ⟨by decide, by decide, by decide,
   (C8_src_media_phase (fun _ => Except.error ()) [] [pendingRow] 5).2.1 pendingRow
     (by decide) (by decide) (by decide)⟩


end RedditSync
